import Mathlib

/-!
Shallow embedding of the drive-me authentication and error-normalization
pipeline, faithful to the TypeScript sources:

* `utils/AppError.ts` (error taxonomy, seen inline in `routes/captain.routes.ts`)
* `middlewares/error.middleware.ts` (normalizer and serializers)
* `models/user.model.ts` (JWT minting, `toObject` transform)
* `models/blacklistToken.model.ts` (revocation store schema)
* `middlewares/captainAuth.middleware.ts` and the user variant (auth gate)
* `services/user.service.ts` (`createUser`)
* `controllers/userAuth.controller.ts` / `captainAuth.controller.ts`
  (login, logout)

External collaborators (MongoDB unique/TTL index behavior, the `jsonwebtoken`
and `bcryptjs` libraries) are modelled minimally but executably, as noted at
each definition.
-/

namespace DriveMe

/-- Structured metadata for a single client input failure
(`IErrorDetail` in `utils/AppError.ts`): optional field name, message, and
the rejected value (rendered as a string here). -/
structure IErrorDetail where
  field : Option String
  message : String
  value : Option String
deriving DecidableEq

/-- First-character test on a string. `AppError`'s constructor computes
`` `${statusCode}`.startsWith('4') ``; for the single-character argument
`'4'` this is exactly "the first character is `'4'`". -/
def startsWithChar (s : String) (c : Char) : Bool :=
  match s.data with
  | [] => false
  | ch :: _ => ch == c

/-- The `AppError` base class of `utils/AppError.ts`: name (constructor
name), message, HTTP status code, API semantic status (`"fail"`/`"error"`),
operational flag, HTTP reason phrase, optional structured details.
The runtime stack trace is not modelled. -/
structure AppError where
  name : String
  message : String
  statusCode : Nat
  status : String
  isOperational : Bool
  errorType : String
  details : Option (List IErrorDetail)
deriving DecidableEq

/-- The `AppError` constructor. Source:
`this.status = `${statusCode}`.startsWith('4') ? "fail" : "error"`;
`isOperational` defaults to `true` in the source and no caller in the
repository ever passes `false`. -/
def mkAppError (name message : String) (statusCode : Nat) (errorType : String)
    (details : Option (List IErrorDetail)) (isOperational : Bool) : AppError :=
  { name := name
    message := message
    statusCode := statusCode
    status := if startsWithChar (Nat.repr statusCode) '4' then "fail" else "error"
    isOperational := isOperational
    errorType := errorType
    details := details }

/-- `class BadRequest extends AppError`: status 400, reason phrase
"Bad Request". -/
def BadRequest.make (message : String) (details : Option (List IErrorDetail)) : AppError :=
  mkAppError "BadRequest" message 400 "Bad Request" details true

/-- `class Unauthorized extends AppError`: status 401; the source default
message is "Unauthorized access". -/
def Unauthorized.make (message : String) : AppError :=
  mkAppError "Unauthorized" message 401 "Unauthorized" none true

/-- `class Forbidden extends AppError`: status 403. -/
def Forbidden.make (message : String) : AppError :=
  mkAppError "Forbidden" message 403 "Forbidden" none true

/-- `class NotFound extends AppError`: status 404, message
`` `${resource} not found` ``. -/
def NotFound.make (resource : String) : AppError :=
  mkAppError "NotFound" (resource ++ " not found") 404 "Not Found" none true

/-- `class Conflict extends AppError`: status 409. -/
def Conflict.make (message : String) (details : Option (List IErrorDetail)) : AppError :=
  mkAppError "Conflict" message 409 "Conflict" details true

/-- `class ValidationProblem extends AppError`: status 422, fixed message
"Validation failed". -/
def ValidationProblem.make (details : Option (List IErrorDetail)) : AppError :=
  mkAppError "ValidationProblem" "Validation failed" 422 "Unprocessable Entity" details true

/-- `class InternalServerError extends AppError`: status 500, fixed message. -/
def InternalServerError.make (details : Option (List IErrorDetail)) : AppError :=
  mkAppError "InternalServerError" "An unexpected error occured. Please try again later."
    500 "Internal Server Error" details true

/-- `class NotImplemented extends AppError`: status 501. -/
def NotImplemented.make (details : Option (List IErrorDetail)) : AppError :=
  mkAppError "NotImplemented" "Feature not implemented yet" 501 "Not Implemented" details true

/-- `class ServiceUnavailable extends AppError`: status 503. -/
def ServiceUnavailable.make (details : Option (List IErrorDetail)) : AppError :=
  mkAppError "ServiceUnavailable" "Service unavailable" 503 "Service Unavailable" details true

/-- One entry of `mongoose.Error.ValidationError#errors`: path, message and
rejected value of an offending field. -/
structure MongooseFieldError where
  path : String
  message : String
  value : Option String
deriving DecidableEq

/-- The failure shapes that reach the global error middleware: the three
storage-error shapes distinguished by `handleMongoError`, an already
structured `AppError`, or any other raw JavaScript error carrying a `name`
and a `message` (this covers the `jsonwebtoken` library errors, whose
names are "JsonWebTokenError" and "TokenExpiredError"). -/
inductive JsError where
  | mongooseValidation (errors : List MongooseFieldError)
  | mongooseCast (path : String) (value : String)
  | mongoDuplicateKey (keyValue : List (String × String))
  | appError (e : AppError)
  | raw (name : String) (message : String)
deriving DecidableEq

/-- The `name` property of the underlying JavaScript error. -/
def JsError.errName : JsError → String
  | .mongooseValidation _ => "ValidationError"
  | .mongooseCast _ _ => "CastError"
  | .mongoDuplicateKey _ => "MongoServerError"
  | .appError e => e.name
  | .raw n _ => n

/-- The `message` property of the underlying JavaScript error (the exact
text of the storage-library messages is irrelevant to every claim). -/
def JsError.errMessage : JsError → String
  | .mongooseValidation _ => "Validation failed"
  | .mongooseCast p v => "Cast to ObjectId failed for value " ++ v ++ " at path " ++ p
  | .mongoDuplicateKey _ => "E11000 duplicate key error"
  | .appError e => e.message
  | .raw _ m => m

/-- `handleMongoError` of `error.middleware.ts`: mongoose validation
errors become `ValidationProblem` with one detail per offending field;
cast errors become `BadRequest`; duplicate-key errors (code 11000) become
`Conflict` with a detail naming the offending field and value; anything
else returns `null`. -/
def handleMongoError : JsError → Option AppError
  | .mongooseValidation errors =>
      some (ValidationProblem.make
        (some (errors.map fun e => ⟨some e.path, e.message, e.value⟩)))
  | .mongooseCast path value =>
      some (BadRequest.make ("Invalid " ++ path ++ ": " ++ value) none)
  | .mongoDuplicateKey keyValue =>
      let fld := ((keyValue.head?).map Prod.fst).getD "unknown"
      let v := ((keyValue.head?).map Prod.snd).getD "undefined"
      some (Conflict.make
        ("Duplicate field value: " ++ fld ++ " = " ++ v ++ ". Please use another value!")
        (some [⟨some fld, v ++ " already exists", some v⟩]))
  | .appError _ => none
  | .raw _ _ => none

/-- `handleJWTError` of `error.middleware.ts`. -/
def handleJWTError : AppError :=
  Unauthorized.make "Invalid token. Please log in again!"

/-- `handleJWTExpiredError` of `error.middleware.ts`. -/
def handleJWTExpiredError : AppError :=
  Unauthorized.make "Your token has expired! Please log in again."

/-- The normalization step of `errorHandler` in `error.middleware.ts`:
first `handleMongoError`, then the JWT `name` checks, then
`instanceof AppError`, and finally the untyped fallback
`new AppError(err.message || 'Internal Server Error', 500, 'error')`
(JavaScript `||` treats the empty message as absent). -/
def errorHandlerNormalize (err : JsError) : AppError :=
  match handleMongoError err with
  | some e => e
  | none =>
    if err.errName = "JsonWebTokenError" then handleJWTError
    else if err.errName = "TokenExpiredError" then handleJWTExpiredError
    else
      match err with
      | .appError e => e
      | e => mkAppError "AppError"
          (if e.errMessage = "" then "Internal Server Error" else e.errMessage)
          500 "error" none true

/-- The client-facing error body (`ErrorResponse` in
`error.middleware.ts`); absent optional fields are `none`. -/
structure ErrorResponse where
  status : String
  message : String
  errorType : Option String
  details : Option (List IErrorDetail)
  stack : Option String
  timestamp : String
deriving DecidableEq

/-- Result of serializing an error: HTTP status code, response body, and
the list of errors logged in full server-side by the serializer itself. -/
structure SerializedError where
  statusCode : Nat
  body : ErrorResponse
  loggedFull : List AppError
deriving DecidableEq

/-- `sendErrorProduction` of `error.middleware.ts`: operational errors are
sent verbatim with their own status code; non-operational errors are
logged in full (`logger.error(err)`) and masked behind a constant 500
body. -/
def sendErrorProduction (e : AppError) (ts : String) : SerializedError :=
  if e.isOperational then
    { statusCode := e.statusCode
      body := ⟨e.status, e.message, some e.errorType, e.details, none, ts⟩
      loggedFull := [] }
  else
    { statusCode := 500
      body := ⟨"error", "Something went wrong!", none, none, none, ts⟩
      loggedFull := [e] }

/-- `errorHandler` of `error.middleware.ts` in any non-development mode
(normalize, then `sendErrorProduction`); the `NODE_ENV === "development"`
branch is outside every claim. -/
def errorHandlerRespond (err : JsError) (ts : String) : SerializedError :=
  sendErrorProduction (errorHandlerNormalize err) ts

/-- The claims of a signed token: `jwt.sign({ _id: this._id }, secret,
{ expiresIn: "24h" })` stores the actor id, issue time and expiry. -/
structure TokenPayload where
  _id : String
  iat : Nat
  exp : Nat
deriving DecidableEq

/-- Modelled from the `jsonwebtoken` library (external collaborator): the
HMAC signature over the payload, abstracted as an injective encoding of
secret and claims. -/
def jwtMac (secret : String) (p : TokenPayload) : String :=
  secret ++ "." ++ p._id ++ "." ++ Nat.repr p.iat ++ "." ++ Nat.repr p.exp

/-- A well-formed signed token: payload plus signature string. -/
structure SignedToken where
  payload : TokenPayload
  sig : String
deriving DecidableEq

/-- A token string as transported by cookie or Authorization header:
either a well-formed signed token or any other (malformed) string. -/
inductive Tok where
  | signed (t : SignedToken)
  | malformed (s : String)
deriving DecidableEq

/-- Modelled from the `jsonwebtoken` library: `jwt.sign` attaches the MAC
over the payload. -/
def jwtSign (p : TokenPayload) (secret : String) : SignedToken :=
  ⟨p, jwtMac secret p⟩

/-- Outcome of `jwt.verify`: decoded payload, or a thrown
`JsonWebTokenError` (malformed / bad signature), or a thrown
`TokenExpiredError`. -/
inductive JwtResult where
  | ok (payload : TokenPayload)
  | errInvalid
  | errExpired
deriving DecidableEq

/-- Modelled from the `jsonwebtoken` library: `jwt.verify` rejects
malformed strings and wrong signatures as `JsonWebTokenError`, rejects
tokens whose `exp` is not after the current time as `TokenExpiredError`,
and otherwise returns the decoded payload. -/
def jwtVerify (tok : Tok) (secret : String) (now : Nat) : JwtResult :=
  match tok with
  | .malformed _ => .errInvalid
  | .signed t =>
    if t.sig ≠ jwtMac secret t.payload then .errInvalid
    else if t.payload.exp ≤ now then .errExpired
    else .ok t.payload

/-- `userSchema.methods.generateAuthToken` of `user.model.ts`: throws when
`process.env.JWT_SECRET` is unset, otherwise signs `{ _id }` with
`expiresIn: "24h"` (86400 seconds). -/
def generateAuthToken (jwtSecret : Option String) (id : String) (now : Nat) :
    Except String SignedToken :=
  match jwtSecret with
  | none =>
      .error "JWT key is not defined. Please ensure it is defined in the environment variables."
  | some secret => .ok (jwtSign ⟨id, now, now + 86400⟩ secret)

/-- A document of the `blacklistToken` collection
(`models/blacklistToken.model.ts`): the token (unique key) and its
creation time. -/
structure BlacklistEntry where
  token : Tok
  createdAt : Nat
deriving DecidableEq

/-- `blacklistToken.findOne({ token })`: lookup by token only — the query
carries no condition on `createdAt`. -/
def blacklistFindOne (store : List BlacklistEntry) (tok : Tok) : Option BlacklistEntry :=
  store.find? (fun e => e.token == tok)

/-- The revocation check as used by both auth gates: the entry found by
`findOne` is treated as present whenever it physically exists. -/
def blacklistContains (store : List BlacklistEntry) (tok : Tok) : Bool :=
  (blacklistFindOne store tok).isSome

/-- Modelled from the spec: "Passive expiry: any entry older than 24 hours
is treated as absent by `contains`, regardless of whether a physical
delete has run" — a read-time filter comparing creation time to the
24-hour retention window. Stated only to compare with the code's
`blacklistContains`, which performs no such filter. -/
def specContains (store : List BlacklistEntry) (tok : Tok) (now : Nat) : Bool :=
  store.any (fun e => e.token == tok && decide (now < e.createdAt + 86400))

/-- Modelled from MongoDB TTL-index semantics (the schema declares
`createdAt: { expires: 86400 }`): the background TTL monitor physically
deletes every entry whose age exceeds 24 hours; `ttlSweep now store` is
the store after such a physical delete pass at time `now`. -/
def ttlSweep (now : Nat) (store : List BlacklistEntry) : List BlacklistEntry :=
  store.filter (fun e => decide (now < e.createdAt + 86400))

/-- A printable rendering of a token string, used as the rejected value in
a duplicate-key error. -/
def tokRepr : Tok → String
  | .malformed s => s
  | .signed t =>
      t.payload._id ++ "." ++ Nat.repr t.payload.iat ++ "." ++
        Nat.repr t.payload.exp ++ "." ++ t.sig

/-- `blacklistToken.create({ token })` against the unique index on
`token` (schema: `unique: true`): inserting a token that is already
present fails with a MongoDB duplicate-key error (code 11000); otherwise
the entry is appended with its creation time. -/
def blacklistCreate (store : List BlacklistEntry) (tok : Tok) (now : Nat) :
    Except JsError (List BlacklistEntry) :=
  if store.any (fun e => e.token == tok) then
    .error (.mongoDuplicateKey [("token", tokRepr tok)])
  else
    .ok (store ++ [⟨tok, now⟩])

/-- A persisted user document (`user.model.ts`): id, name, unique email,
and the stored credential hash. -/
structure UserRec where
  id : String
  firstName : String
  lastName : Option String
  email : String
  password : String
deriving DecidableEq

/-- The outward representation of a user after the `toJSON` / `toObject`
transform: the `password` and `__v` fields are deleted. -/
structure UserPublic where
  id : String
  firstName : String
  lastName : Option String
  email : String
deriving DecidableEq

/-- The `toObject` transform of `user.model.ts`: every field except the
credential hash (and the mongoose version key) is preserved. -/
def toObject (u : UserRec) : UserPublic :=
  ⟨u.id, u.firstName, u.lastName, u.email⟩

/-- `authenticateUserByToken` (user auth middleware; the captain variant
is identical up to the actor collection): extract the token from cookie
or bearer header, reject if absent; reject if blacklisted; throw a plain
`Error` if the signing secret is unset; verify signature and expiry;
load the actor by the decoded id, rejecting when it no longer exists. -/
def authenticateUserByToken (token : Option Tok) (store : List BlacklistEntry)
    (jwtSecret : Option String) (users : List UserRec) (now : Nat) :
    Except JsError UserRec :=
  match token with
  | none => .error (.appError (Unauthorized.make "Unauthorized access"))
  | some tok =>
    if blacklistContains store tok then
      .error (.appError (Unauthorized.make "Unauthorized access"))
    else
      match jwtSecret with
      | none =>
          .error (.raw "Error"
            "JWT key is not defined. Please ensure it is defined in the environment variables.")
      | some secret =>
        match jwtVerify tok secret now with
        | .errInvalid => .error (.raw "JsonWebTokenError" "invalid token")
        | .errExpired => .error (.raw "TokenExpiredError" "jwt expired")
        | .ok decoded =>
          match users.find? (fun u => u.id == decoded._id) with
          | none => .error (.appError (Unauthorized.make "Unauthorized access"))
          | some u => .ok u

/-- The auth gate composed with the global error middleware: a rejected
request is serialized by `errorHandlerRespond` (non-development mode). -/
def gateRespond (token : Option Tok) (store : List BlacklistEntry)
    (jwtSecret : Option String) (users : List UserRec) (now : Nat) (ts : String) :
    Except SerializedError UserRec :=
  match authenticateUserByToken token store jwtSecret users now with
  | .ok u => .ok u
  | .error e => .error (errorHandlerRespond e ts)

/-- HTTP status of a gate response, `none` on acceptance. -/
def respondedStatus : Except SerializedError UserRec → Option Nat
  | .error r => some r.statusCode
  | .ok _ => none

/-- Client-visible message of a gate response, `none` on acceptance. -/
def respondedMessage : Except SerializedError UserRec → Option String
  | .error r => some r.body.message
  | .ok _ => none

/-- The registration payload (`RegisterUserDto`): first name, optional
last name, email, password. Absent / falsy fields are modelled as the
empty string, matching the JavaScript truthiness checks. -/
structure RegisterUserDto where
  firstName : String
  lastName : Option String
  email : String
  password : String
deriving DecidableEq

/-- `userModel.create` against the unique index on `email`: the insert
itself rejects a duplicate email with a MongoDB duplicate-key error
(code 11000) naming the offending field and value. -/
def userInsert (users : List UserRec) (u : UserRec) : Except JsError (List UserRec) :=
  if users.any (fun v => v.email == u.email) then
    .error (.mongoDuplicateKey [("email", u.email)])
  else
    .ok (users ++ [u])

/-- `createUser` of `services/user.service.ts`: throw `ValidationProblem`
when a required field is missing; throw `Conflict("User already exists")`
when `findOne({ email })` finds an existing user; otherwise create the
document (which the unique index may still reject under a concurrent
race). Returns the created user and the new collection state. -/
def createUser (users : List UserRec) (dto : RegisterUserDto) (newId : String) :
    Except JsError (UserRec × List UserRec) :=
  if dto.email == "" || dto.firstName == "" || dto.password == "" then
    .error (.appError (ValidationProblem.make none))
  else if (users.find? (fun u => u.email == dto.email)).isSome then
    .error (.appError (Conflict.make "User already exists" none))
  else
    let u : UserRec := ⟨newId, dto.firstName, dto.lastName, dto.email, dto.password⟩
    match userInsert users u with
    | .error e => .error e
    | .ok users2 => .ok (u, users2)

/-- A cookie as set by `res.cookie(name, value, options?)`. The login
handlers call `res.cookie("token", token)` with no options, so every
attribute, `httpOnly` included, is left at its Express default `false`. -/
structure CookieSet where
  name : String
  value : String
  httpOnly : Bool
deriving DecidableEq

/-- The uniform success envelope produced by the response middleware:
`{ success: true, message?, data, meta: { timestamp } }`. -/
structure SuccessBody (α : Type) where
  success : Bool
  message : Option String
  data : α
  timestamp : String
deriving DecidableEq

/-- Result of a successful login: HTTP 200, the `token` cookie, and the
enveloped body whose data is `{ user: userObj }` with `userObj` the
`toObject` view of the actor. -/
structure LoginSuccess where
  statusCode : Nat
  cookie : CookieSet
  body : SuccessBody UserPublic
deriving DecidableEq

/-- The `login` handler of `userAuth.controller.ts` (the captain variant
is identical up to the actor collection): reject missing fields with
`BadRequest`; look the actor up by email (with the credential hash
selected); reject an unknown email or a failed `bcrypt.compare` with
`Unauthorized("Invalid credentials")`; mint a token; set the cookie via
`res.cookie("token", token)` (no options, hence no HTTP-only attribute);
answer with `res.ok({ user: userObj }, "User logged in successfully")`.
The bcrypt comparison of the external `bcryptjs` library is passed in as
`compare`. -/
def login (users : List UserRec) (email password : String)
    (compare : String → String → Bool) (jwtSecret : Option String)
    (now : Nat) (ts : String) : Except JsError LoginSuccess :=
  if email == "" || password == "" then
    .error (.appError
      (BadRequest.make "Invalid request payload. Kindly specify all required fields." none))
  else
    match users.find? (fun u => u.email == email) with
    | none => .error (.appError (Unauthorized.make "Invalid credentials"))
    | some u =>
      if compare password u.password then
        match generateAuthToken jwtSecret u.id now with
        | .error m => .error (.raw "Error" m)
        | .ok t =>
            .ok { statusCode := 200
                  cookie := ⟨"token", tokRepr (.signed t), false⟩
                  body := ⟨true, some "User logged in successfully", toObject u, ts⟩ }
      else
        .error (.appError (Unauthorized.make "Invalid credentials"))

/-- HTTP-only attribute of the cookie set by a login response, `none`
when the login failed. -/
def loginCookieHttpOnly : Except JsError LoginSuccess → Option Bool
  | .ok r => some r.cookie.httpOnly
  | .error _ => none

/-- Status code of a login response, `none` when the login failed. -/
def loginStatus : Except JsError LoginSuccess → Option Nat
  | .ok r => some r.statusCode
  | .error _ => none

/-- Result of the user `logout` handler: the (unchanged) revocation
store, the HTTP status, whether the `token` cookie was cleared, and the
enveloped body (`res.ok("User logged out successfully")` passes the
string as the data argument and no message). -/
structure LogoutResult where
  store : List BlacklistEntry
  statusCode : Nat
  clearedCookie : Bool
  body : SuccessBody String
deriving DecidableEq

/-- The `logout` handler of `userAuth.controller.ts`: it only clears the
client cookie and answers 200 — it touches no server-side state and in
particular writes no revocation entry. -/
def userLogout (store : List BlacklistEntry) (ts : String) : LogoutResult :=
  { store := store
    statusCode := 200
    clearedCookie := true
    body := ⟨true, none, "User logged out successfully", ts⟩ }

/-- Outcome of an HTTP request: a success status with its message, or a
failure serialized by the error middleware. -/
inductive HttpOutcome where
  | success (statusCode : Nat) (message : Option String)
  | failure (resp : SerializedError)
deriving DecidableEq

/-- The HTTP status of an outcome. -/
def outcomeStatus : HttpOutcome → Nat
  | .success c _ => c
  | .failure r => r.statusCode

/-- The `logout` handler of `captainAuth.controller.ts`: with a token in
hand it runs `await blacklistToken.create({ token })` — whose failure
propagates through `asyncHandler` to the error middleware — then clears
the cookie and answers `res.ok(null, "Captain logged out successfully")`.
(The token-absent branch sends the same 200; it is outside every claim.)
Returns the store after the request and the outcome. -/
def captainLogout (store : List BlacklistEntry) (token : Option Tok)
    (now : Nat) (ts : String) : List BlacklistEntry × HttpOutcome :=
  match token with
  | none => (store, .success 200 (some "Captain logged out successfully"))
  | some tok =>
    match blacklistCreate store tok now with
    | .error e => (store, .failure (errorHandlerRespond e ts))
    | .ok store2 => (store2, .success 200 (some "Captain logged out successfully"))

/-! ## Helper lemmas -/

/-- Finding in a filtered list succeeds exactly when some element passes
both predicates. -/
theorem find?_filter_isSome {α : Type} (l : List α) (p q : α → Bool) :
    ((l.filter p).find? q).isSome = l.any (fun a => q a && p a) := by
  rw [Bool.eq_iff_iff]
  simp only [List.find?_isSome, List.any_eq_true, List.mem_filter]
  constructor
  · rintro ⟨x, ⟨hx, hpx⟩, hqx⟩
    exact ⟨x, hx, by rw [Bool.and_eq_true]; exact ⟨hqx, hpx⟩⟩
  · rintro ⟨x, hx, hqp⟩
    rw [Bool.and_eq_true] at hqp
    exact ⟨x, ⟨hx, hqp.2⟩, hqp.1⟩

/-- Finding in an appended list succeeds when either part has a match. -/
theorem find?_append_isSome {α : Type} (l1 l2 : List α) (q : α → Bool) :
    (((l1 ++ l2).find? q)).isSome = (((l1.find? q)).isSome || ((l2.find? q)).isSome) := by
  induction l1 with
  | nil => rfl
  | cons a l ih =>
    by_cases hq : q a
    · simp [List.find?_cons, hq]
    · simp [List.find?_cons, hq, ih]

set_option maxRecDepth 8192 in
/-- Bounded check over all well-formed HTTP status codes: the decimal
representation of a code below 600 starts with the digit 4 exactly when
the code lies in the 4xx range. -/
theorem reprStartsWithFour_iff :
    ∀ c, c < 600 → (100 ≤ c →
      ((if startsWithChar (Nat.repr c) '4' then "fail" else "error") = "fail"
        ↔ 400 ≤ c ∧ c ≤ 499)) := by decide

/-! ## Claims -/

/-- Claim C10: for every constructed `AppError` whose status code is a
well-formed HTTP status code (100–599), the serialized `status` field is
`"fail"` exactly when the code is in the 4xx range and `"error"`
otherwise; and every subclass constructor of the hierarchy preserves the
invariant at its fixed status code. -/
theorem c10_status_fail_iff_4xx :
    (∀ (c : Nat), 100 ≤ c → c ≤ 599 →
      ∀ (n m et : String) (d : Option (List IErrorDetail)) (op : Bool),
        ((mkAppError n m c et d op).status = "fail" ↔ 400 ≤ c ∧ c ≤ 499))
    ∧ (∀ m d, (BadRequest.make m d).status = "fail")
    ∧ (∀ m, (Unauthorized.make m).status = "fail")
    ∧ (∀ m, (Forbidden.make m).status = "fail")
    ∧ (∀ r, (NotFound.make r).status = "fail")
    ∧ (∀ m d, (Conflict.make m d).status = "fail")
    ∧ (∀ d, (ValidationProblem.make d).status = "fail")
    ∧ (∀ d, (InternalServerError.make d).status = "error")
    ∧ (∀ d, (NotImplemented.make d).status = "error")
    ∧ (∀ d, (ServiceUnavailable.make d).status = "error") := by
  refine ⟨?_, fun m d => rfl, fun m => rfl, fun m => rfl, fun r => rfl, fun m d => rfl,
    fun d => rfl, fun d => rfl, fun d => rfl, fun d => rfl⟩
  intro c h1 h2 n m et d op
  simpa [mkAppError] using reprStartsWithFour_iff c (by omega) h1

/-- Witness for C10 at the concrete status code 404. -/
theorem c10_status_fail_iff_4xx_witness :
    (mkAppError "AppError" "m" 404 "Not Found" none true).status = "fail"
      ↔ 400 ≤ 404 ∧ 404 ≤ 499 :=
  c10_status_fail_iff_4xx.1 404 (by decide) (by decide) "AppError" "m" "Not Found" none true

/-- Claim C1 (code bug): the untyped-error fallback of `errorHandler`
does yield HTTP status 500, but it leaves `isOperational` at the
constructor default `true` (and passes the literal string `'error'` as
the reason phrase), so the non-development serializer sends the raw
internal message — here `"boom"` — verbatim to the client instead of
masking it as the spec requires of a non-operational `InternalError`. -/
theorem c1_unknown_failure_kept_operational :
    ∀ ts : String,
      (errorHandlerNormalize (.raw "RangeError" "boom")).statusCode = 500
      ∧ (errorHandlerNormalize (.raw "RangeError" "boom")).isOperational = true
      ∧ (errorHandlerNormalize (.raw "RangeError" "boom")).errorType = "error"
      ∧ (errorHandlerRespond (.raw "RangeError" "boom") ts).body.message = "boom" :=
  fun _ => ⟨rfl, rfl, rfl, rfl⟩

/-- Claim C5: in non-development mode, an operational error is serialized
verbatim — its own status code with `{status, message, errorType,
details, timestamp}` — and nothing is logged in full by the serializer; a
non-operational error is logged in full server-side and the client
receives only the constant masked 500 body, which carries no content of
the original failure. -/
theorem c5_production_serialization :
    ∀ (e : AppError) (ts : String),
      (e.isOperational = true →
        sendErrorProduction e ts =
          ⟨e.statusCode, ⟨e.status, e.message, some e.errorType, e.details, none, ts⟩, []⟩)
      ∧ (e.isOperational = false →
        sendErrorProduction e ts =
          ⟨500, ⟨"error", "Something went wrong!", none, none, none, ts⟩, [e]⟩) := by
  intro e ts
  constructor <;> intro h <;> simp [sendErrorProduction, h]

/-- Witness for C5: one operational and one non-operational error. -/
theorem c5_production_serialization_witness :
    (sendErrorProduction (Unauthorized.make "Invalid credentials") "ts" =
      ⟨401, ⟨"fail", "Invalid credentials", some "Unauthorized", none, none, "ts"⟩, []⟩)
    ∧ (sendErrorProduction (mkAppError "AppError" "internal detail" 500 "error" none false) "ts" =
      ⟨500, ⟨"error", "Something went wrong!", none, none, none, "ts"⟩,
        [mkAppError "AppError" "internal detail" 500 "error" none false]⟩) :=
  ⟨(c5_production_serialization (Unauthorized.make "Invalid credentials") "ts").1 rfl,
   (c5_production_serialization (mkAppError "AppError" "internal detail" 500 "error" none false)
      "ts").2 rfl⟩

/-- Claim C7: verifying a token immediately after minting it recovers the
minting actor id (with issue time `now` and expiry `now + 24h`). -/
theorem c7_token_roundtrip :
    ∀ (secret id : String) (now : Nat),
      ∃ t, generateAuthToken (some secret) id now = .ok t
        ∧ jwtVerify (.signed t) secret now = .ok ⟨id, now, now + 86400⟩ := by
  intro secret id now
  refine ⟨_, rfl, ?_⟩
  simp [jwtVerify, jwtSign]

/-- Claim C3 counterexample: an entry created at time 0 whose physical
TTL delete has not yet run is still reported present by the code's
revocation check at time 86401 — more than 24 hours after creation —
while the read-time filter the claim describes reports it absent. -/
theorem c3_counterexample_undeleted_entry_still_present :
    blacklistContains [⟨Tok.malformed "tkn", 0⟩] (Tok.malformed "tkn") = true
    ∧ specContains [⟨Tok.malformed "tkn", 0⟩] (Tok.malformed "tkn") 86401 = false := by
  decide

/-- Claim C3 (amended): the revocation check applies no time filter of
its own; an entry stops being honored only through the physical TTL
delete. After a TTL delete pass at time `now`, `contains` reports a token
present exactly when the store held an entry for it younger than 24
hours. -/
theorem c3_contains_after_ttl_sweep :
    ∀ (store : List BlacklistEntry) (tok : Tok) (now : Nat),
      blacklistContains (ttlSweep now store) tok
        = store.any (fun e => e.token == tok && decide (now < e.createdAt + 86400)) := by
  intro store tok now
  simpa [blacklistContains, blacklistFindOne, ttlSweep] using
    find?_filter_isSome store (fun e => decide (now < e.createdAt + 86400))
      (fun e => e.token == tok)

/-- Claim C2 counterexample: after a first captain logout with token
`"tkn"`, a second logout presenting the same token hits the unique index
on the blacklist; the duplicate-key error is serialized as 409, not
200. -/
theorem c2_counterexample_second_logout_409 :
    outcomeStatus (captainLogout (captainLogout [] (some (Tok.malformed "tkn")) 0 "t1").1
        (some (Tok.malformed "tkn")) 10 "t2").2 = 409
    ∧ ¬ outcomeStatus (captainLogout (captainLogout [] (some (Tok.malformed "tkn")) 0 "t1").1
        (some (Tok.malformed "tkn")) 10 "t2").2 = 200 := by
  decide

/-- Claim C2 (amended): inserting an already-present token into the
revocation store is a duplicate-key error, not a no-op: the first captain
logout with a token answers 200 and stores one entry; a second logout
with the same token answers 409 Conflict (via the error normalizer) and
still leaves exactly that one entry. -/
theorem c2_second_logout_conflict :
    ∀ (tok : Tok) (n1 n2 : Nat) (t1 t2 : String),
      outcomeStatus (captainLogout [] (some tok) n1 t1).2 = 200
      ∧ (captainLogout [] (some tok) n1 t1).1 = [⟨tok, n1⟩]
      ∧ outcomeStatus (captainLogout [⟨tok, n1⟩] (some tok) n2 t2).2 = 409
      ∧ (captainLogout [⟨tok, n1⟩] (some tok) n2 t2).1 = [⟨tok, n1⟩] := by
  intro tok n1 n2 t1 t2
  refine ⟨rfl, rfl, ?_, ?_⟩ <;>
    simp [captainLogout, blacklistCreate, outcomeStatus, errorHandlerRespond,
      errorHandlerNormalize, handleMongoError, sendErrorProduction, Conflict.make, mkAppError]

/-- Claim C4 counterexample: a malformed token and an expired token both
yield status 401, but their production response bodies carry different
messages, so the response does distinguish the two causes. -/
theorem c4_counterexample_messages_distinguish_causes :
    respondedStatus (gateRespond (some (Tok.malformed "garbage")) [] (some "s")
        [⟨"u1", "Ann", none, "a@b.com", "h"⟩] 100000 "ts") = some 401
    ∧ respondedStatus (gateRespond
        (some (Tok.signed (jwtSign ⟨"u1", 0, 86400⟩ "s"))) [] (some "s")
        [⟨"u1", "Ann", none, "a@b.com", "h"⟩] 100000 "ts") = some 401
    ∧ respondedMessage (gateRespond (some (Tok.malformed "garbage")) [] (some "s")
        [⟨"u1", "Ann", none, "a@b.com", "h"⟩] 100000 "ts")
      ≠ respondedMessage (gateRespond
        (some (Tok.signed (jwtSign ⟨"u1", 0, 86400⟩ "s"))) [] (some "s")
        [⟨"u1", "Ann", none, "a@b.com", "h"⟩] 100000 "ts") := by
  decide

/-- Claim C4 (amended): missing token, malformed token, expired token and
deleted actor all yield HTTP status 401; the missing-token and
deleted-actor causes share the identical body message "Unauthorized
access", but malformed and expired tokens carry the distinct
client-visible messages of the JWT handlers, so the body does distinguish
those causes. -/
theorem c4_all_causes_401 :
    ∀ (secret : String) (users : List UserRec) (now : Nat) (ts : String),
      (respondedStatus (gateRespond none [] (some secret) users now ts) = some 401
        ∧ respondedMessage (gateRespond none [] (some secret) users now ts)
            = some "Unauthorized access")
      ∧ (∀ s : String,
          respondedStatus (gateRespond (some (.malformed s)) [] (some secret) users now ts)
              = some 401
          ∧ respondedMessage (gateRespond (some (.malformed s)) [] (some secret) users now ts)
              = some "Invalid token. Please log in again!")
      ∧ (∀ p : TokenPayload, p.exp ≤ now →
          respondedStatus (gateRespond (some (.signed (jwtSign p secret))) []
              (some secret) users now ts) = some 401
          ∧ respondedMessage (gateRespond (some (.signed (jwtSign p secret))) []
              (some secret) users now ts)
              = some "Your token has expired! Please log in again.")
      ∧ (∀ p : TokenPayload, now < p.exp →
          users.find? (fun u => u.id == p._id) = none →
          respondedStatus (gateRespond (some (.signed (jwtSign p secret))) []
              (some secret) users now ts) = some 401
          ∧ respondedMessage (gateRespond (some (.signed (jwtSign p secret))) []
              (some secret) users now ts) = some "Unauthorized access") := by
  intro secret users now ts
  refine ⟨⟨rfl, rfl⟩, fun s => ⟨rfl, rfl⟩, ?_, ?_⟩
  · intro p hexp
    constructor <;>
      simp [gateRespond, authenticateUserByToken, blacklistContains, blacklistFindOne,
        jwtVerify, jwtSign, hexp, errorHandlerRespond, errorHandlerNormalize,
        handleMongoError, JsError.errName, handleJWTExpiredError, Unauthorized.make,
        mkAppError, sendErrorProduction, respondedStatus, respondedMessage]
  · intro p hnow hfind
    have hne : ¬ (p.exp ≤ now) := by omega
    constructor <;>
      simp [gateRespond, authenticateUserByToken, blacklistContains, blacklistFindOne,
        jwtVerify, jwtSign, hne, hfind, errorHandlerRespond, errorHandlerNormalize,
        handleMongoError, JsError.errName, Unauthorized.make,
        mkAppError, sendErrorProduction, respondedStatus, respondedMessage]

/-- Witness for C4 at concrete inputs: an expired token (minted at 0,
checked at time 100000) and a valid token whose actor no longer exists. -/
theorem c4_all_causes_401_witness :
    (respondedStatus (gateRespond (some (.signed (jwtSign ⟨"u1", 0, 86400⟩ "s"))) []
        (some "s") [] 100000 "ts") = some 401
      ∧ respondedMessage (gateRespond (some (.signed (jwtSign ⟨"u1", 0, 86400⟩ "s"))) []
        (some "s") [] 100000 "ts") = some "Your token has expired! Please log in again.")
    ∧ (respondedStatus (gateRespond (some (.signed (jwtSign ⟨"u1", 0, 200000⟩ "s"))) []
        (some "s") [] 100000 "ts") = some 401
      ∧ respondedMessage (gateRespond (some (.signed (jwtSign ⟨"u1", 0, 200000⟩ "s"))) []
        (some "s") [] 100000 "ts") = some "Unauthorized access") :=
  ⟨(c4_all_causes_401 "s" [] 100000 "ts").2.2.1 ⟨"u1", 0, 86400⟩ (by decide),
   (c4_all_causes_401 "s" [] 100000 "ts").2.2.2 ⟨"u1", 0, 200000⟩ (by decide) rfl⟩

/-- Claim C6: registering a second time with an email that is already
stored yields exactly one `Conflict` (status 409) and stores no duplicate
actor; and a unique-constraint violation surfacing from the insert itself
is normalized to `Conflict` (409, never 500) with a detail entry naming
the offending field and value. -/
theorem c6_duplicate_registration_conflict :
    (∀ (users : List UserRec) (dto : RegisterUserDto) (id1 id2 : String),
      dto.email ≠ "" → dto.firstName ≠ "" → dto.password ≠ "" →
      users.find? (fun u => u.email == dto.email) = none →
      ∃ u users2,
        createUser users dto id1 = .ok (u, users2)
        ∧ createUser users2 dto id2
            = .error (.appError (Conflict.make "User already exists" none))
        ∧ (errorHandlerNormalize
            (.appError (Conflict.make "User already exists" none))).statusCode = 409
        ∧ (users2.filter (fun v => v.email == dto.email)).length = 1)
    ∧ (∀ f v : String,
        (errorHandlerNormalize (.mongoDuplicateKey [(f, v)])).statusCode = 409
        ∧ (errorHandlerNormalize (.mongoDuplicateKey [(f, v)])).errorType = "Conflict"
        ∧ (errorHandlerNormalize (.mongoDuplicateKey [(f, v)])).details
            = some [⟨some f, v ++ " already exists", some v⟩]
        ∧ (errorHandlerNormalize (.mongoDuplicateKey [(f, v)])).statusCode ≠ 500) := by
  constructor
  · intro users dto id1 id2 he hf hp hfind
    have hbe : (dto.email == "") = false := beq_eq_false_iff_ne.mpr he
    have hbf : (dto.firstName == "") = false := beq_eq_false_iff_ne.mpr hf
    have hbp : (dto.password == "") = false := beq_eq_false_iff_ne.mpr hp
    have hany : users.any (fun v => v.email == dto.email) = false := by
      rw [List.any_eq_false]
      intro v hv
      simpa using List.find?_eq_none.mp hfind v hv
    have hfil : users.filter (fun v => v.email == dto.email) = [] := by
      rw [List.filter_eq_nil_iff]
      intro v hv
      simpa using List.find?_eq_none.mp hfind v hv
    refine ⟨⟨id1, dto.firstName, dto.lastName, dto.email, dto.password⟩,
      users ++ [(⟨id1, dto.firstName, dto.lastName, dto.email, dto.password⟩ : UserRec)],
      ?_, ?_, rfl, ?_⟩
    · simp [createUser, hbe, hbf, hbp, hfind, userInsert, hany]
    · have h1 : ((([(⟨id1, dto.firstName, dto.lastName, dto.email, dto.password⟩ : UserRec)]).find?
          (fun u => u.email == dto.email))).isSome = true := by
        simp [List.find?_cons]
      have h2 : (((users ++
          [(⟨id1, dto.firstName, dto.lastName, dto.email, dto.password⟩ : UserRec)]).find?
          (fun u => u.email == dto.email))).isSome = true := by
        rw [find?_append_isSome, h1, Bool.or_true]
      simp [createUser, hbe, hbf, hbp, h2]
    · simp [List.filter_append, hfil, List.filter_cons]
  · intro f v
    exact ⟨rfl, rfl, rfl, (by decide : (409 : Nat) ≠ 500)⟩

/-- Witness for C6: two registrations of `a@b.com` starting from an empty
collection. -/
theorem c6_duplicate_registration_conflict_witness :
    (∃ u users2, createUser [] ⟨"Ann", none, "a@b.com", "pw"⟩ "id1" = .ok (u, users2)
      ∧ createUser users2 ⟨"Ann", none, "a@b.com", "pw"⟩ "id2"
          = .error (.appError (Conflict.make "User already exists" none))
      ∧ (errorHandlerNormalize
          (.appError (Conflict.make "User already exists" none))).statusCode = 409
      ∧ (users2.filter (fun v => v.email == "a@b.com")).length = 1)
    ∧ ((errorHandlerNormalize (.mongoDuplicateKey [("email", "a@b.com")])).statusCode = 409
      ∧ (errorHandlerNormalize (.mongoDuplicateKey [("email", "a@b.com")])).errorType = "Conflict"
      ∧ (errorHandlerNormalize (.mongoDuplicateKey [("email", "a@b.com")])).details
          = some [⟨some "email", "a@b.com already exists", some "a@b.com"⟩]
      ∧ (errorHandlerNormalize (.mongoDuplicateKey [("email", "a@b.com")])).statusCode ≠ 500) :=
  ⟨c6_duplicate_registration_conflict.1 [] ⟨"Ann", none, "a@b.com", "pw"⟩ "id1" "id2"
      (by decide) (by decide) (by decide) rfl,
   c6_duplicate_registration_conflict.2 "email" "a@b.com"⟩

/-- Claim C8 counterexample: a successful login (existing email, matching
password) answers 200, but the `token` cookie is set by
`res.cookie("token", token)` with no options, so its HTTP-only attribute
is `false` rather than set. -/
theorem c8_counterexample_cookie_not_httponly :
    loginStatus (login [⟨"u1", "Ann", none, "a@b.com", "hash1"⟩] "a@b.com" "pw"
        (fun _ _ => true) (some "s") 0 "ts") = some 200
    ∧ loginCookieHttpOnly (login [⟨"u1", "Ann", none, "a@b.com", "hash1"⟩] "a@b.com" "pw"
        (fun _ _ => true) (some "s") 0 "ts") = some false := by
  decide

/-- Claim C8 (amended): every successful login (existing email, matching
password) answers 200 with a cookie named `token` containing the minted
JWT but without the HTTP-only attribute, and an enveloped body whose
actor is the `toObject` view, which excludes the credential hash (it is
invariant under any change of the stored hash). -/
theorem c8_login_success_response :
    (∀ (users : List UserRec) (email password : String)
        (compare : String → String → Bool) (secret : String) (now : Nat) (ts : String)
        (u : UserRec),
      email ≠ "" → password ≠ "" →
      users.find? (fun v => v.email == email) = some u →
      compare password u.password = true →
      login users email password compare (some secret) now ts
        = .ok ⟨200,
            ⟨"token", tokRepr (.signed (jwtSign ⟨u.id, now, now + 86400⟩ secret)), false⟩,
            ⟨true, some "User logged in successfully", toObject u, ts⟩⟩)
    ∧ (∀ (v : UserRec) (pw : String), toObject { v with password := pw } = toObject v) := by
  constructor
  · intro users email password compare secret now ts u he hp hfind hcmp
    have hbe : (email == "") = false := beq_eq_false_iff_ne.mpr he
    have hbp : (password == "") = false := beq_eq_false_iff_ne.mpr hp
    simp [login, hbe, hbp, hfind, hcmp, generateAuthToken]
  · intro v pw
    rfl

/-- Witness for C8 at a concrete single-user store. -/
theorem c8_login_success_response_witness :
    login [⟨"u1", "Ann", none, "a@b.com", "h1"⟩] "a@b.com" "pw"
        (fun p _ => p == "pw") (some "s") 5 "ts"
      = .ok ⟨200,
          ⟨"token", tokRepr (.signed (jwtSign ⟨"u1", 5, 5 + 86400⟩ "s")), false⟩,
          ⟨true, some "User logged in successfully",
            toObject ⟨"u1", "Ann", none, "a@b.com", "h1"⟩, "ts"⟩⟩ :=
  c8_login_success_response.1 [⟨"u1", "Ann", none, "a@b.com", "h1"⟩] "a@b.com" "pw"
    (fun p _ => p == "pw") "s" 5 "ts" ⟨"u1", "Ann", none, "a@b.com", "h1"⟩
    (by decide) (by decide) (by decide) (by decide)

/-- Claim C9: the user logout handler changes no server-side state — the
revocation store after it is the store before it — while answering 200
and clearing the client cookie; consequently the user auth gate gives the
same verdict on every token after the logout as before it, and in
particular still accepts a valid, unexpired, non-blacklisted token of an
existing user. -/
theorem c9_user_logout_frame :
    ∀ (store : List BlacklistEntry) (ts : String),
      (userLogout store ts).store = store
      ∧ (userLogout store ts).statusCode = 200
      ∧ (userLogout store ts).clearedCookie = true
      ∧ (∀ (tok : Option Tok) (secret : Option String) (users : List UserRec) (now : Nat),
          authenticateUserByToken tok ((userLogout store ts).store) secret users now
            = authenticateUserByToken tok store secret users now)
      ∧ (∀ (p : TokenPayload) (secret : String) (users : List UserRec) (now : Nat)
            (u : UserRec),
          blacklistContains store (.signed (jwtSign p secret)) = false →
          now < p.exp →
          users.find? (fun v => v.id == p._id) = some u →
          authenticateUserByToken (some (.signed (jwtSign p secret)))
            ((userLogout store ts).store) (some secret) users now = .ok u) := by
  intro store ts
  refine ⟨rfl, rfl, rfl, fun tok secret users now => rfl, ?_⟩
  intro p secret users now u hbl hexp hfind
  have hne : ¬ (p.exp ≤ now) := by omega
  simp only [jwtSign] at hbl
  simp [userLogout, authenticateUserByToken, hbl, jwtVerify, jwtSign, hne, hfind]

/-- Witness for C9: a token minted at 0 is still accepted at time 100
after a logout against the empty store. -/
theorem c9_user_logout_frame_witness :
    authenticateUserByToken (some (.signed (jwtSign ⟨"u1", 0, 86400⟩ "s")))
      ((userLogout [] "ts").store) (some "s") [⟨"u1", "Ann", none, "a@b.com", "h"⟩] 100
      = .ok ⟨"u1", "Ann", none, "a@b.com", "h"⟩ :=
  ((c9_user_logout_frame [] "ts").2.2.2.2) ⟨"u1", 0, 86400⟩ "s"
    [⟨"u1", "Ann", none, "a@b.com", "h"⟩] 100 ⟨"u1", "Ann", none, "a@b.com", "h"⟩
    (by decide) (by decide) (by decide)

end DriveMe
